import Mathlib

/-!
Verification of the Clam music cog (src/cogs/music.py) against its
natural-language specification.

Shallow embedding: the command handlers of `Music` are translated into pure
Lean functions over explicit state.  Identifiers keep the source names where
Lean allows it.
-/

namespace Clam

/-- The hard-coded developer user id from `is_dj` (music.py line 59). -/
def devId : Nat := 224513210471022592

/-- A guild member as the vote gate and `is_dj` see it: an id, whether the
account is automated (`member.bot`), the `manage_guild` permission bit, and
whether the member holds the role named "DJ" resp. "dj" in the guild
(`upper in author.roles` / `lower in author.roles`; absence of the role in
the guild makes the flag false, as `None in roles` is false in Python). -/
structure Member where
  id : Nat
  bot : Bool
  manage_guild : Bool
  hasRoleDJ : Bool
  hasRoledj : Bool
deriving DecidableEq, Repr

/-- Embedding of the `is_dj` check predicate (music.py lines 57-70):
manage-guild permission, either DJ role, or the hard-coded developer id. -/
def is_dj (author : Member) : Bool :=
  author.manage_guild || author.hasRoleDJ || author.hasRoledj || (author.id == devId)

/-- Result reported by `Music.votes` (music.py lines 305-349): the gated
action ran, a vote was recorded (with the count message's numbers), or the
caller was told they already voted. -/
inductive VoteOutcome
  | executed
  | voteAdded (total required : Nat)
  | alreadyVoted
deriving DecidableEq, Repr

/-- Embedding of `Music.votes` (music.py lines 305-349) for one gated
command.  Inputs: the voter, the id of the current song's requester
(`ctx.player.current.requester`), the full voice-channel member list
(`ctx.player.voice.channel.members`, automated members included), and the
command's current vote set `ctx.player._votes[cmd]` (a set of user ids,
modelled as a duplicate-free list).  Returns the reported outcome and the
vote set afterwards. -/
def votes (voter : Member) (requesterId : Nat) (channelMembers : List Member)
    (voteSet : List Nat) : VoteOutcome × List Nat :=
  let if_is_requester := voter.id == requesterId
  let if_has_perms := voter.manage_guild
  let if_is_dj := voter.hasRoleDJ || voter.hasRoledj
  -- lines 321-330: both occupancy branches use len(channel.members)
  let is_only_user := channelMembers.length < 3
  let required_votes :=
    if channelMembers.length < 5 then channelMembers.length - 1 else 3
  if if_is_requester || if_has_perms || is_only_user || if_is_dj then
    (.executed, voteSet)
  else if !(voteSet.contains voter.id) then
    let vs := voter.id :: voteSet
    let total_votes := vs.length
    if required_votes ≤ total_votes then (.executed, [])
    else (.voteAdded total_votes required_votes, vs)
  else
    (.alreadyVoted, voteSet)

/-- Count of non-automated occupants of a channel: the spec's `N`
(the filter the source applies in `on_voice_leave` line 270, but not in
`votes`). -/
def nonBotCount (channelMembers : List Member) : Nat :=
  (channelMembers.filter (fun m => !m.bot)).length

/-- Required-votes threshold as `votes` computes it, from the TOTAL channel
member count (automated members included): below 3 no threshold (bypass),
from 3 to 4 members it is count - 1, from 5 on it is 3. -/
def requiredVotesOf (memberCount : Nat) : Option Nat :=
  if memberCount < 3 then none
  else if memberCount < 5 then some (memberCount - 1)
  else some 3

/-- Threshold function as the claim words it, over the NON-AUTOMATED
occupant count N: below 3 bypass, 3 <= N < 5 exactly N - 1, N >= 5
exactly 3.  Stated from the spec for comparison with the source. -/
def specRequiredVotes (n : Nat) : Option Nat :=
  if n < 3 then none
  else if n < 5 then some (n - 1)
  else some 3

/-! The volume command (music.py lines 442-463). -/

/-- Player state seen by the volume command: the stored volume
(`ctx.player.volume`, a fraction of 1, modelled as a rational) and whether a
song is currently playing (`ctx.player.is_playing`, a property of the
out-of-tree `music_player.Player`, modelled as a boolean field). -/
structure PlayerVol where
  volume : Rat
  is_playing : Bool
deriving DecidableEq, Repr

/-- What the volume command reports back. -/
inductive VolumeResult
  | showCurrent
  | notPlaying
  | rejectedRange
  | setOk (v : Rat)
deriving DecidableEq, Repr

/-- Embedding of the `volume` command body after the player-existence check
(music.py lines 442-463).  `vol` is the `volume: int = None` argument;
Python's `if not volume` treats both `None` and `0` as absent.  The range
test is transcribed exactly as written in line 456: `0 > volume > 100`,
that is `0 > volume and volume > 100`. -/
def volumeCmd (p : PlayerVol) (vol : Option Int) : VolumeResult × PlayerVol :=
  match vol with
  | none => (.showCurrent, p)
  | some v =>
    if v = 0 then (.showCurrent, p)
    else if p.is_playing = false then (.notPlaying, p)
    else if 0 > v ∧ v > 100 then (.rejectedRange, p)
    else (.setOk ((v : Rat) / 100), { p with volume := (v : Rat) / 100 })

/-! The loop and loop queue commands (music.py lines 666-713). -/

/-- Player state seen by the two loop commands: the `loop` and `loop_queue`
flags, whether a song is playing, and the queue length
(`len(ctx.player.songs)`). -/
structure PlayerLoop where
  loop : Bool
  loop_queue : Bool
  is_playing : Bool
  songsLen : Nat
deriving DecidableEq, Repr

/-- Embedding of the `loop` command body after the player-existence check
(music.py lines 671-693): guard, then toggle `loop` and force
`loop_queue := False`. -/
def loopCmd (p : PlayerLoop) : PlayerLoop :=
  if p.is_playing = false ∧ p.loop = false then p
  else { p with loop := !p.loop, loop_queue := false }

/-- Embedding of the `loop queue` command body after the player-existence
check (music.py lines 698-713): two guards, then toggle `loop_queue` and
force `loop := False`. -/
def loop_queueCmd (p : PlayerLoop) : PlayerLoop :=
  if p.is_playing = false ∧ p.loop_queue = false then p
  else if p.songsLen = 0 ∧ p.loop_queue = false then p
  else { p with loop_queue := !p.loop_queue, loop := false }

/-! The inactivity monitor: listener `on_voice_leave`
(music.py lines 257-303). -/

/-- A queued media item; the inactivity snapshot only reads its canonical
URL (`s.url`). -/
structure Song where
  url : String
deriving DecidableEq, Repr

/-- Observable outcome of one inactivity episode: whether `player.pause()`
ran, whether the player was destroyed (`player.stop()` awaited and the
guild's entry deleted from `self.players`), the argument of the persistence
call (`self.post`) if one was issued, and whether `player.resume()` ran. -/
structure VoiceLeaveOutcome where
  paused : Bool
  destroyed : Bool
  persistCalled : Option (List String)
  resumeInvoked : Bool
deriving DecidableEq, Repr

/-- Embedding of the `on_voice_leave` listener body, after the
member-is-bot / player-exists / voice-exists guards (music.py lines
270-303).  `channelMembers` is the voice channel's member list; the episode
only proceeds when no non-automated member remains (line 277).  `current`
is the playing song, `queue` the player's queue contents in order
(`player.songs.to_list()`; modelled from the spec: `toList` returns a
snapshot preserving queue order, section 4.1).  `rejoin` tells whether the
120-second `wait_for` succeeded (a non-automated member re-entered the
channel) or timed out.  `postResult` is what `self.post` returned; `none`
models the `url is None` failure branch of line 295.  `player.pause`,
`player.stop` and `player.resume` are out-of-tree; the outcome record only
reports that they were invoked. -/
def on_voice_leave (channelMembers : List Member) (current : Song)
    (queue : List Song) (rejoin : Bool) (postResult : Option String) :
    VoiceLeaveOutcome :=
  if 0 < (channelMembers.filter (fun m => !m.bot)).length then
    { paused := false, destroyed := false, persistCalled := none,
      resumeInvoked := false }
  else if rejoin then
    -- wait_for returned before the timeout: fall through to player.resume()
    { paused := true, destroyed := false, persistCalled := none,
      resumeInvoked := true }
  else if 0 < queue.length then
    -- timeout branch, non-empty queue: snapshot, stop, delete, post
    let songs := current.url :: queue.map Song.url
    match postResult with
    | none =>
      -- line 295: url is None, early return before player.resume()
      { paused := true, destroyed := true, persistCalled := some songs,
        resumeInvoked := false }
    | some _ =>
      { paused := true, destroyed := true, persistCalled := some songs,
        resumeInvoked := true }
  else
    -- timeout branch, empty queue: songs = None, no post call
    { paused := true, destroyed := true, persistCalled := none,
      resumeInvoked := true }

/-! Song resolution in `play_song` (music.py lines 791-838). -/

/-- Timeout bound on the external resolution call, in seconds
(music.py line 813: `async with timeout(180):  # 3m`). -/
def resolutionTimeoutSeconds : Nat := 180

/-- How the awaited `ytdl.Song.get_song` / `get_song_from_db` call ended:
a song, a resolver error, the 3-minute timeout, or a falsy result. -/
inductive ResolveOutcome
  | success (s : Song)
  | ytdlError (msg : String)
  | timedOut
  | noResult
deriving DecidableEq, Repr

/-- Message classes `play_song` can send for the fetch. -/
inductive PlayMsg
  | errorReport (msg : String)
  | timeoutReport
  | couldNotFetch
  | enqueuedOrPlaying
deriving DecidableEq, Repr

/-- Embedding of the fetch section of `play_song` (music.py lines 811-838):
the effect of the try/except around the timeout-bounded resolution on the
player's queue, plus what is reported.  On success the song is appended to
the queue tail (`ctx.player.songs.put`; modelled from the spec: enqueue
appends at tail, section 4.1). -/
def play_song_fetch (queue : List Song) (outcome : ResolveOutcome) :
    PlayMsg × List Song :=
  match outcome with
  | .ytdlError m => (.errorReport m, queue)
  | .timedOut => (.timeoutReport, queue)
  | .noResult => (.couldNotFetch, queue)
  | .success s => (.enqueuedOrPlaying, queue ++ [s])

/-! Command gating (decorators and vote-gate routing in music.py). -/

/-- The user-facing playback commands of the cog that the claims mention. -/
inductive Cmd
  | join | summon | leave | volume | pause | resume | stop
  | skip | skipto | shuffle | queueRemove | loopSingle | loopQueue
deriving DecidableEq, Repr

/-- Whether the command carries the `@is_dj()` decorator in the source:
summon (line 382), leave (line 418), pause (line 488), resume (line 503),
stop (line 515), skipto (line 549).  `volume` (line 442) carries none. -/
def hasDJCheck : Cmd → Bool
  | .summon | .leave | .pause | .resume | .stop | .skipto => true
  | _ => false

/-- Whether the command's handler routes its action through `Music.votes`:
skip (line 546), shuffle (line 631), queue remove (line 650). -/
def usesVoteGate : Cmd → Bool
  | .skip | .shuffle | .queueRemove => true
  | _ => false

/-- Whether a caller passes a command's privilege gate, so the handler body
runs: commands without the `is_dj` decorator run for anyone, decorated ones
only when `is_dj` holds for the caller. -/
def commandGateAdmits (author : Member) (c : Cmd) : Bool :=
  !(hasDJCheck c) || is_dj author

/-- The call sites in music.py that await the external media resolver. -/
inductive ResolutionSite
  | playSong
  | dbSong
  | ytPlaylist
  | binFetch
deriving DecidableEq, Repr

/-- Timeout bound, in seconds, wrapped around each media-resolution call
site: `play_song` wraps `ytdl.Song.get_song` and `get_song_from_db` in
`async with timeout(180)` (line 813); `fetch_yt_playlist` awaits
`ytdl.Song.get_playlist` with no timeout wrapper (line 745); and
`hastebin_playlist` awaits `ytdl.Song.get_song` per line with no timeout
wrapper (line 892). -/
def resolutionTimeoutBound : ResolutionSite → Option Nat
  | .playSong => some 180
  | .dbSong => some 180
  | .ytPlaylist => none
  | .binFetch => none

/-! Theorems. -/

/-- Helper: a Nat disequality gives a false beq. -/
theorem beq_false_of_ne {a b : Nat} (h : a ≠ b) : (a == b) = false := by
  simpa using h

/-- Helper: for a caller with no bypass condition in a channel of at least
3 total members, `votes` reduces to the threshold comparison: execute and
clear when the new distinct-vote count reaches the threshold, else record
the vote and report the count. -/
theorem votes_nobypass (voter : Member) (requesterId : Nat)
    (channelMembers : List Member) (voteSet : List Nat)
    (hreq : voter.id ≠ requesterId) (hperm : voter.manage_guild = false)
    (hdj1 : voter.hasRoleDJ = false) (hdj2 : voter.hasRoledj = false)
    (h3 : 3 ≤ channelMembers.length)
    (hmem : voteSet.contains voter.id = false) :
    votes voter requesterId channelMembers voteSet =
      if (if channelMembers.length < 5 then channelMembers.length - 1 else 3) ≤
          voteSet.length + 1 then
        (VoteOutcome.executed, [])
      else
        (VoteOutcome.voteAdded (voteSet.length + 1)
          (if channelMembers.length < 5 then channelMembers.length - 1 else 3),
         voter.id :: voteSet) := by
  have hbeq : (voter.id == requesterId) = false := beq_false_of_ne hreq
  have hnlt : ¬ channelMembers.length < 3 := by omega
  have hnm : voter.id ∉ voteSet := by simpa using hmem
  unfold votes
  simp [hbeq, hperm, hdj1, hdj2, hmem, hnlt, hnm]

/-- C1 (counterexample): in a channel holding one automated member and
three non-automated members, the non-automated occupant count N is 3, so
the claim requires exactly N - 1 = 2 distinct voters; yet the second
distinct no-bypass voter is only recorded as vote 2 of 3 and the action
does not execute, because `votes` derives its threshold from the total
member count 4. -/
theorem C1_counterexample :
    nonBotCount [⟨0, true, false, false, false⟩, ⟨1, false, false, false, false⟩,
        ⟨2, false, false, false, false⟩, ⟨3, false, false, false, false⟩] = 3 ∧
    specRequiredVotes 3 = some 2 ∧
    votes ⟨10, false, false, false, false⟩ 99
        [⟨0, true, false, false, false⟩, ⟨1, false, false, false, false⟩,
         ⟨2, false, false, false, false⟩, ⟨3, false, false, false, false⟩] [11] =
      (.voteAdded 2 3, [10, 11]) := by
  decide

/-- C1 (amended): for a caller with no bypass condition, the
required-votes threshold is a function of the channel's TOTAL occupant
count M, automated members included: any vote with M below 3 bypasses and
executes immediately; with 3 <= M < 5 the action executes exactly when the
distinct-voter count reaches M - 1; with M >= 5 exactly when it
reaches 3. -/
theorem C1_threshold_amended (voter : Member) (requesterId : Nat)
    (channelMembers : List Member) (voteSet : List Nat)
    (hreq : voter.id ≠ requesterId) (hperm : voter.manage_guild = false)
    (hdj1 : voter.hasRoleDJ = false) (hdj2 : voter.hasRoledj = false)
    (hmem : voteSet.contains voter.id = false) :
    (channelMembers.length < 3 →
      votes voter requesterId channelMembers voteSet =
        (VoteOutcome.executed, voteSet)) ∧
    (3 ≤ channelMembers.length → channelMembers.length < 5 →
      ((votes voter requesterId channelMembers voteSet).1 =
          VoteOutcome.executed ↔
        channelMembers.length - 1 ≤ voteSet.length + 1)) ∧
    (5 ≤ channelMembers.length →
      ((votes voter requesterId channelMembers voteSet).1 =
          VoteOutcome.executed ↔
        3 ≤ voteSet.length + 1)) := by
  have hbeq : (voter.id == requesterId) = false := beq_false_of_ne hreq
  refine ⟨fun hlt => ?_, fun h3 h5 => ?_, fun h5 => ?_⟩
  · simp [votes, hbeq, hperm, hdj1, hdj2, hlt]
  · rw [votes_nobypass voter requesterId channelMembers voteSet hreq hperm hdj1
      hdj2 h3 hmem, if_pos h5]
    split
    · rename_i hle
      simp [hle]
    · rename_i hgt
      simp [hgt]
  · rw [votes_nobypass voter requesterId channelMembers voteSet hreq hperm hdj1
      hdj2 (by omega) hmem, if_neg (by omega : ¬ channelMembers.length < 5)]
    split
    · rename_i hle
      simp [hle]
    · rename_i hgt
      simp [hgt]

/-- C1 (witness): a channel of 4 total members, a no-bypass voter and two
prior voters: the threshold 4 - 1 = 3 is reached by this third distinct
vote, so the action executes. -/
theorem C1_threshold_witness :
    (([⟨0, false, false, false, false⟩, ⟨1, false, false, false, false⟩,
        ⟨2, false, false, false, false⟩,
        ⟨3, false, false, false, false⟩] : List Member).length < 3 →
      votes ⟨10, false, false, false, false⟩ 99
          [⟨0, false, false, false, false⟩, ⟨1, false, false, false, false⟩,
           ⟨2, false, false, false, false⟩, ⟨3, false, false, false, false⟩]
          [11, 12] =
        (VoteOutcome.executed, [11, 12])) ∧
    (3 ≤ ([⟨0, false, false, false, false⟩, ⟨1, false, false, false, false⟩,
        ⟨2, false, false, false, false⟩,
        ⟨3, false, false, false, false⟩] : List Member).length →
      ([⟨0, false, false, false, false⟩, ⟨1, false, false, false, false⟩,
        ⟨2, false, false, false, false⟩,
        ⟨3, false, false, false, false⟩] : List Member).length < 5 →
      ((votes ⟨10, false, false, false, false⟩ 99
          [⟨0, false, false, false, false⟩, ⟨1, false, false, false, false⟩,
           ⟨2, false, false, false, false⟩, ⟨3, false, false, false, false⟩]
          [11, 12]).1 = VoteOutcome.executed ↔
        ([⟨0, false, false, false, false⟩, ⟨1, false, false, false, false⟩,
          ⟨2, false, false, false, false⟩,
          ⟨3, false, false, false, false⟩] : List Member).length - 1 ≤
          ([11, 12] : List Nat).length + 1)) ∧
    (5 ≤ ([⟨0, false, false, false, false⟩, ⟨1, false, false, false, false⟩,
        ⟨2, false, false, false, false⟩,
        ⟨3, false, false, false, false⟩] : List Member).length →
      ((votes ⟨10, false, false, false, false⟩ 99
          [⟨0, false, false, false, false⟩, ⟨1, false, false, false, false⟩,
           ⟨2, false, false, false, false⟩, ⟨3, false, false, false, false⟩]
          [11, 12]).1 = VoteOutcome.executed ↔
        3 ≤ ([11, 12] : List Nat).length + 1)) :=
  C1_threshold_amended ⟨10, false, false, false, false⟩ 99
    [⟨0, false, false, false, false⟩, ⟨1, false, false, false, false⟩,
     ⟨2, false, false, false, false⟩, ⟨3, false, false, false, false⟩]
    [11, 12] (by decide) rfl rfl rfl (by decide)

/-- C4 (counterexample): a caller holding the manage-guild permission in a
5-member channel executes the gated action through the privilege bypass,
but the pending vote set [42] is NOT cleared: `votes` returns it
unchanged and non-empty. -/
theorem C4_counterexample :
    votes ⟨1, false, true, false, false⟩ 99
        [⟨0, true, false, false, false⟩, ⟨1, false, false, false, false⟩,
         ⟨2, false, false, false, false⟩, ⟨3, false, false, false, false⟩,
         ⟨4, false, false, false, false⟩] [42] =
      (.executed, [42]) ∧ ([42] : List Nat) ≠ [] := by
  decide

/-- C4 (amended): the vote set is cleared exactly when the gated action
executes by reaching the vote threshold; when the action executes through
a direct privilege bypass (requester, manage-guild permission, occupant
count below 3, or DJ role), the set is returned unchanged, not cleared. -/
theorem C4_clear_amended (voter : Member) (requesterId : Nat)
    (channelMembers : List Member) (voteSet : List Nat) :
    ((voter.id = requesterId ∨ voter.manage_guild = true ∨
        channelMembers.length < 3 ∨ voter.hasRoleDJ = true ∨
        voter.hasRoledj = true) →
      votes voter requesterId channelMembers voteSet =
        (VoteOutcome.executed, voteSet)) ∧
    (voter.id ≠ requesterId → voter.manage_guild = false →
      voter.hasRoleDJ = false → voter.hasRoledj = false →
      3 ≤ channelMembers.length →
      voteSet.contains voter.id = false →
      (votes voter requesterId channelMembers voteSet).1 =
        VoteOutcome.executed →
      (votes voter requesterId channelMembers voteSet).2 = []) := by
  constructor
  · rintro (h | h | h | h | h) <;> simp [votes, h]
  · intro hreq hperm hdj1 hdj2 h3 hmem hex
    rw [votes_nobypass voter requesterId channelMembers voteSet hreq hperm hdj1
      hdj2 h3 hmem] at hex ⊢
    by_cases hle : (if channelMembers.length < 5 then
        channelMembers.length - 1 else 3) ≤ voteSet.length + 1
    · rw [if_pos hle]
    · rw [if_neg hle] at hex
      simp at hex

/-- C4 (witness): the manage-guild caller's bypass leaves the set [42]
untouched, and a third distinct ordinary voter in a 4-member channel
reaches the threshold 3 and finds the set cleared. -/
theorem C4_clear_witness :
    votes ⟨1, false, true, false, false⟩ 99
        [⟨0, true, false, false, false⟩, ⟨1, false, false, false, false⟩,
         ⟨2, false, false, false, false⟩, ⟨3, false, false, false, false⟩,
         ⟨4, false, false, false, false⟩] [42] =
      (VoteOutcome.executed, [42]) ∧
    (votes ⟨10, false, false, false, false⟩ 99
        [⟨0, false, false, false, false⟩, ⟨1, false, false, false, false⟩,
         ⟨2, false, false, false, false⟩, ⟨3, false, false, false, false⟩]
        [11, 12]).2 = [] :=
  ⟨(C4_clear_amended ⟨1, false, true, false, false⟩ 99
      [⟨0, true, false, false, false⟩, ⟨1, false, false, false, false⟩,
       ⟨2, false, false, false, false⟩, ⟨3, false, false, false, false⟩,
       ⟨4, false, false, false, false⟩] [42]).1 (Or.inr (Or.inl rfl)),
   (C4_clear_amended ⟨10, false, false, false, false⟩ 99
      [⟨0, false, false, false, false⟩, ⟨1, false, false, false, false⟩,
       ⟨2, false, false, false, false⟩, ⟨3, false, false, false, false⟩]
      [11, 12]).2 (by decide) rfl rfl rfl (by decide) (by decide) (by decide)⟩

/-- C8: a caller with no bypass condition who is already in the command's
vote set is told they already voted; the vote set is returned unchanged
and the action does not execute. -/
theorem C8_repeat_vote (voter : Member) (requesterId : Nat)
    (channelMembers : List Member) (voteSet : List Nat)
    (hreq : voter.id ≠ requesterId) (hperm : voter.manage_guild = false)
    (hdj1 : voter.hasRoleDJ = false) (hdj2 : voter.hasRoledj = false)
    (h3 : 3 ≤ channelMembers.length)
    (hmem : voteSet.contains voter.id = true) :
    votes voter requesterId channelMembers voteSet =
      (VoteOutcome.alreadyVoted, voteSet) := by
  have hbeq : (voter.id == requesterId) = false := beq_false_of_ne hreq
  have hnlt : ¬ channelMembers.length < 3 := by omega
  have hm : voter.id ∈ voteSet := by simpa using hmem
  unfold votes
  simp [hbeq, hperm, hdj1, hdj2, hmem, hnlt, hm]

/-- C8 (witness): voter 10 already voted in a 5-member channel; the repeat
vote is rejected and the set is unchanged. -/
theorem C8_repeat_vote_witness :
    votes ⟨10, false, false, false, false⟩ 99
        [⟨0, false, false, false, false⟩, ⟨1, false, false, false, false⟩,
         ⟨2, false, false, false, false⟩, ⟨3, false, false, false, false⟩,
         ⟨4, false, false, false, false⟩] [10] =
      (VoteOutcome.alreadyVoted, [10]) :=
  C8_repeat_vote ⟨10, false, false, false, false⟩ 99
    [⟨0, false, false, false, false⟩, ⟨1, false, false, false, false⟩,
     ⟨2, false, false, false, false⟩, ⟨3, false, false, false, false⟩,
     ⟨4, false, false, false, false⟩] [10]
    (by decide) rfl rfl rfl (by decide) (by decide)

/-- C10 (counterexample): the hard-coded developer id passes `is_dj`, but
the vote-gated skip command does NOT execute immediately for that caller:
the vote gate's inline DJ check tests only the two roles, so in a 5-member
channel the developer's vote is merely recorded as 1 of 3. -/
theorem C10_counterexample :
    usesVoteGate Cmd.skip = true ∧
    is_dj ⟨devId, false, false, false, false⟩ = true ∧
    votes ⟨devId, false, false, false, false⟩ 99
        [⟨0, false, false, false, false⟩, ⟨1, false, false, false, false⟩,
         ⟨2, false, false, false, false⟩, ⟨3, false, false, false, false⟩,
         ⟨4, false, false, false, false⟩] [] =
      (.voteAdded 1 3, [devId]) := by
  decide

/-- C10 (amended): the `is_dj` predicate returns true for the fixed
hard-coded user id regardless of the caller's roles and permissions, so
every privilege-gated (is_dj-decorated) command admits that caller; the
vote gate, whose inline DJ check ignores the hard-coded id, is not covered
by this bypass. -/
theorem C10_dev_amended (a : Member) (c : Cmd) (h : a.id = devId) :
    is_dj a = true ∧ commandGateAdmits a c = true := by
  have hbeq : (a.id == devId) = true := by simp [h]
  constructor
  · simp [is_dj, hbeq]
  · cases c <;> simp [commandGateAdmits, hasDJCheck, is_dj, hbeq]

/-- C10 (witness): the developer account with no roles and no permissions
passes `is_dj` and is admitted by the privilege gate of the pause
command. -/
theorem C10_dev_witness :
    is_dj ⟨devId, false, false, false, false⟩ = true ∧
    commandGateAdmits ⟨devId, false, false, false, false⟩ Cmd.pause = true :=
  C10_dev_amended ⟨devId, false, false, false, false⟩ Cmd.pause rfl

/-- C2 (code evaluated at the failing input): with a song playing and
stored volume 1/2, the volume call with percentage 150 is NOT rejected:
the range check transcribed from line 456, `0 > volume and volume > 100`,
is unsatisfiable, so the command reports success and the stored volume
becomes 3/2, contradicting both the claim and the command's own docstring
and error message ("Must be between 1 and 100"). -/
theorem C2_volume_150_accepted :
    volumeCmd ⟨1 / 2, true⟩ (some 150) =
      (VolumeResult.setOk (3 / 2), { volume := 3 / 2, is_playing := true }) ∧
    ((3 : Rat) / 2 ≠ 1 / 2) := by
  constructor
  · norm_num [volumeCmd]
  · norm_num

/-- C3 (counterexample): the channel empties (only the automated account
remains) and nobody rejoins; the queue is EMPTY but a current song exists,
so the snapshot current-plus-queue is the non-empty list ["u0"]; yet no
persistence call is issued (the `songs = None` branch), although the
player is destroyed. -/
theorem C3_counterexample :
    (Song.url ⟨"u0"⟩ :: ([] : List Song).map Song.url) ≠ [] ∧
    on_voice_leave [⟨0, true, false, false, false⟩] ⟨"u0"⟩ [] false
        (some "mystbin") =
      { paused := true, destroyed := true, persistCalled := none,
        resumeInvoked := true } := by
  exact ⟨by simp, rfl⟩

/-- C3 (amended): in every inactivity episode with zero non-automated
occupants and no rejoin within the wait, the player is destroyed
regardless of the persistence outcome, and a persistence call carrying the
song URLs in current-song-first-then-queue order is issued exactly when
the QUEUE is non-empty (a current song alone is not persisted). -/
theorem C3_inactivity_amended (channelMembers : List Member) (current : Song)
    (queue : List Song) (postResult : Option String)
    (hempty : (channelMembers.filter (fun m => !m.bot)).length = 0) :
    (on_voice_leave channelMembers current queue false postResult).destroyed =
      true ∧
    (on_voice_leave channelMembers current queue false postResult).persistCalled =
      (if queue.length = 0 then none
       else some (current.url :: queue.map Song.url)) := by
  unfold on_voice_leave
  rw [hempty]
  cases queue with
  | nil => simp
  | cons s t => cases postResult <;> simp

/-- C3 (witness): one automated occupant left in the channel, current song
"u0", queue ["u1", "u2"], persistence succeeding: the player is destroyed
and the persisted list is current-first then queue order. -/
theorem C3_inactivity_witness :
    (on_voice_leave [⟨0, true, false, false, false⟩] ⟨"u0"⟩
        [⟨"u1"⟩, ⟨"u2"⟩] false (some "mystbin")).destroyed = true ∧
    (on_voice_leave [⟨0, true, false, false, false⟩] ⟨"u0"⟩
        [⟨"u1"⟩, ⟨"u2"⟩] false (some "mystbin")).persistCalled =
      (if ([⟨"u1"⟩, ⟨"u2"⟩] : List Song).length = 0 then none
       else some (Song.url ⟨"u0"⟩ :: ([⟨"u1"⟩, ⟨"u2"⟩] : List Song).map
         Song.url)) :=
  C3_inactivity_amended [⟨0, true, false, false, false⟩] ⟨"u0"⟩
    [⟨"u1"⟩, ⟨"u2"⟩] (some "mystbin") rfl

/-- C5: in every inactivity episode where a non-automated occupant rejoins
within the wait, `player.resume()` is invoked (after the `player.pause()`
at episode start), no persistence call occurs, and the player is not
destroyed. -/
theorem C5_rejoin_resumes (channelMembers : List Member) (current : Song)
    (queue : List Song) (postResult : Option String)
    (hempty : (channelMembers.filter (fun m => !m.bot)).length = 0) :
    on_voice_leave channelMembers current queue true postResult =
      { paused := true, destroyed := false, persistCalled := none,
        resumeInvoked := true } := by
  unfold on_voice_leave
  rw [hempty]
  simp

/-- C5 (witness): concrete rejoin episode with a non-empty queue. -/
theorem C5_rejoin_witness :
    on_voice_leave [⟨0, true, false, false, false⟩] ⟨"u0"⟩ [⟨"u1"⟩] true
        (some "mystbin") =
      { paused := true, destroyed := false, persistCalled := none,
        resumeInvoked := true } :=
  C5_rejoin_resumes [⟨0, true, false, false, false⟩] ⟨"u0"⟩ [⟨"u1"⟩]
    (some "mystbin") rfl

/-- C6 (counterexample): a caller with no manage-guild permission, no DJ
role and an ordinary id fails `is_dj`, yet the volume command admits them
(it carries no privilege decorator), and the handler then changes the
stored volume: the volume command takes effect without privilege. -/
theorem C6_counterexample :
    is_dj ⟨10, false, false, false, false⟩ = false ∧
    commandGateAdmits ⟨10, false, false, false, false⟩ Cmd.volume = true ∧
    (volumeCmd ⟨1 / 2, true⟩ (some 80)).2.volume = 4 / 5 := by
  refine ⟨by decide, by decide, ?_⟩
  norm_num [volumeCmd]

/-- C6 (amended): pause, resume and stop are privilege-gated (a caller
failing `is_dj` is rejected), none of pause, resume, stop, volume is
routed through the vote gate, but volume carries no privilege gate at all:
any caller is admitted. -/
theorem C6_gating_amended (a : Member) (hndj : is_dj a = false) :
    commandGateAdmits a Cmd.pause = false ∧
    commandGateAdmits a Cmd.resume = false ∧
    commandGateAdmits a Cmd.stop = false ∧
    commandGateAdmits a Cmd.volume = true ∧
    usesVoteGate Cmd.pause = false ∧ usesVoteGate Cmd.resume = false ∧
    usesVoteGate Cmd.stop = false ∧ usesVoteGate Cmd.volume = false := by
  simp [commandGateAdmits, hasDJCheck, usesVoteGate, hndj]

/-- C6 (witness): the unprivileged caller with id 10 is rejected by pause,
resume and stop but admitted by volume; none of the four uses the vote
gate. -/
theorem C6_gating_witness :
    commandGateAdmits ⟨10, false, false, false, false⟩ Cmd.pause = false ∧
    commandGateAdmits ⟨10, false, false, false, false⟩ Cmd.resume = false ∧
    commandGateAdmits ⟨10, false, false, false, false⟩ Cmd.stop = false ∧
    commandGateAdmits ⟨10, false, false, false, false⟩ Cmd.volume = true ∧
    usesVoteGate Cmd.pause = false ∧ usesVoteGate Cmd.resume = false ∧
    usesVoteGate Cmd.stop = false ∧ usesVoteGate Cmd.volume = false :=
  C6_gating_amended ⟨10, false, false, false, false⟩ (by decide)

/-- C7: for every prior player state, after the loop command the two loop
flags are not both set, after the loop-queue command the two loop flags
are not both set, and whichever mode an operation leaves enabled, the
other is off. -/
theorem C7_loop_exclusive (p : PlayerLoop) :
    (((loopCmd p).loop && (loopCmd p).loop_queue) = false) ∧
    (((loop_queueCmd p).loop && (loop_queueCmd p).loop_queue) = false) ∧
    ((loopCmd p).loop = true → (loopCmd p).loop_queue = false) ∧
    ((loop_queueCmd p).loop_queue = true → (loop_queueCmd p).loop = false) := by
  rcases p with ⟨l, lq, ip, n⟩
  cases l <;> cases lq <;> cases ip <;> by_cases hn : n = 0 <;>
    simp_all [loopCmd, loop_queueCmd]

/-- C7 (witness): with a song playing, enabling single-loop from the
queue-looping state clears the queue-loop flag, and enabling queue-loop
from the single-loop state clears the single-loop flag. -/
theorem C7_loop_witness :
    (loop_queueCmd ⟨true, false, true, 2⟩).loop = false ∧
    (loopCmd ⟨false, true, true, 2⟩).loop_queue = false :=
  ⟨(C7_loop_exclusive ⟨true, false, true, 2⟩).2.2.2 (by decide),
   (C7_loop_exclusive ⟨false, true, true, 2⟩).2.2.1 (by decide)⟩

/-- C9 (counterexample): not every external media-resolution call is
bounded by the 3-minute timeout: the YouTube-playlist resolution awaited
in `fetch_yt_playlist` and the per-line song resolution awaited in
`hastebin_playlist` carry no timeout wrapper at all. -/
theorem C9_counterexample :
    resolutionTimeoutBound ResolutionSite.ytPlaylist = none ∧
    resolutionTimeoutBound ResolutionSite.binFetch = none ∧
    resolutionTimeoutBound ResolutionSite.ytPlaylist ≠ some (3 * 60) := by
  decide

/-- C9 (amended): the single-song resolution calls in `play_song` (YouTube
search and database lookup) are bounded by the fixed 180-second = 3-minute
timeout, and when that timeout elapses the invoker is told the fetch timed
out and the queue is unchanged, no song enqueued; the playlist and bin
resolution call sites carry no timeout bound. -/
theorem C9_timeout_amended (queue : List Song) :
    resolutionTimeoutBound ResolutionSite.playSong = some (3 * 60) ∧
    resolutionTimeoutBound ResolutionSite.dbSong = some (3 * 60) ∧
    resolutionTimeoutSeconds = 3 * 60 ∧
    play_song_fetch queue ResolveOutcome.timedOut =
      (PlayMsg.timeoutReport, queue) :=
  ⟨rfl, rfl, rfl, rfl⟩

end Clam
